import Mathlib

/-!
Verification of the physics core of the Approx-Sandbox repository
(src/src/main/main.js).  JavaScript double arithmetic is idealized as the
real numbers; rendering state (three.js meshes, colors) and the DOM event
handlers are omitted, so only the physics data model and the operations the
claims concern are embedded.  Every definition below mirrors the
correspondingly named JavaScript entity.
-/

noncomputable section

/-- The `Vec3` value class (main.js lines 6-17): three real components. -/
@[ext]
structure Vec3 where
  x : ℝ
  y : ℝ
  z : ℝ

/-- `Vec3.zero()`. -/
def Vec3.zero : Vec3 := ⟨0, 0, 0⟩

/-- `Vec3.add`. -/
def Vec3.add (a v : Vec3) : Vec3 := ⟨a.x + v.x, a.y + v.y, a.z + v.z⟩

/-- `Vec3.sub`. -/
def Vec3.sub (a v : Vec3) : Vec3 := ⟨a.x - v.x, a.y - v.y, a.z - v.z⟩

/-- `Vec3.mul` (scalar scaling). -/
def Vec3.mul (a : Vec3) (s : ℝ) : Vec3 := ⟨a.x * s, a.y * s, a.z * s⟩

/-- `Vec3.dot`. -/
def Vec3.dot (a v : Vec3) : ℝ := a.x * v.x + a.y * v.y + a.z * v.z

/-- `Vec3.length`: `Math.sqrt(x*x+y*y+z*z)`. -/
def Vec3.length (a : Vec3) : ℝ := Real.sqrt (a.x * a.x + a.y * a.y + a.z * a.z)

/-- `Vec3.normalize`: `const l=this.length(); return l===0?new Vec3():this.mul(1/l);`. -/
def Vec3.normalize (a : Vec3) : Vec3 :=
  if a.length = 0 then Vec3.zero else a.mul (1 / a.length)

/-- The shape variants (main.js lines 23-38).  The `SHAPE_TYPE` tags are
SPHERE:0, BOX:1, CYLINDER:2, CUSTOM:3; in Lean the variant itself carries the
tag.  `SphereShape`, `BoxShape`, `CylinderShape`, `CompoundShape` store their
constructor arguments unchanged (the source performs no validation). -/
inductive Shape where
  | sphere (radius : ℝ)
  | box (size : ℝ)
  | cylinder (radius : ℝ) (height : ℝ)
  | custom (shapes : List (Shape × Vec3))

/-- The numeric `SHAPE_TYPE` tag of a shape (main.js line 23). -/
def Shape.typeTag : Shape → ℕ
  | .sphere _ => 0
  | .box _ => 1
  | .cylinder _ _ => 2
  | .custom _ => 3

/-- The JavaScript property read `shape.size` with `undefined` encoded as `0`
(`undefined` and `0` behave identically in every `||` expression the source
applies to these fields). -/
def Shape.sizeField : Shape → ℝ
  | .box s => s
  | _ => 0

/-- The JavaScript property read `shape.radius`, `undefined` encoded as `0`. -/
def Shape.radiusField : Shape → ℝ
  | .sphere r => r
  | .cylinder r _ => r
  | _ => 0

/-- The JavaScript property read `shape.height`, `undefined` encoded as `0`. -/
def Shape.heightField : Shape → ℝ
  | .cylinder _ h => h
  | _ => 0

/-- The `RigidBody` state (main.js lines 41-63); the `mesh` rendering proxy
and `orientation` placeholder quaternion are omitted (never read by the
physics paths embedded here). -/
structure RigidBody where
  position : Vec3
  velocity : Vec3
  force : Vec3
  shape : Shape
  mass : ℝ
  invMass : ℝ
  restitution : ℝ
  friction : ℝ
  angularVelocity : Vec3
  torque : Vec3
  inertia : ℝ
  invInertia : ℝ

/-- The `RigidBody` constructor (main.js lines 42-63): `position.copy()`,
zero velocity/force/torque, `invMass = mass>0 ? 1/mass : 0`, restitution
0.35, friction 0.3, and the demo inertia by shape kind. -/
def mkRigidBody (position : Vec3) (shape : Shape) (mass : ℝ) : RigidBody :=
  let inertia : ℝ :=
    match shape with
    | .sphere r => (2 / 5) * mass * r ^ 2
    | .cylinder r _ => (1 / 2) * mass * r ^ 2
    | _ => 1
  { position := position
    velocity := Vec3.zero
    force := Vec3.zero
    shape := shape
    mass := mass
    invMass := if mass > 0 then 1 / mass else 0
    restitution := 0.35
    friction := 0.3
    angularVelocity := Vec3.zero
    torque := Vec3.zero
    inertia := inertia
    invInertia := if inertia > 0 then 1 / inertia else 0 }

/-- `RigidBody.applyForce` (main.js line 64). -/
def RigidBody.applyForce (b : RigidBody) (f : Vec3) : RigidBody :=
  { b with force := b.force.add f }

/-- `RigidBody.applyTorque` (main.js line 65). -/
def RigidBody.applyTorque (b : RigidBody) (t : Vec3) : RigidBody :=
  { b with torque := b.torque.add t }

/-- `RigidBody.integrate` (main.js lines 66-83): early return for
`invMass===0`; otherwise semi-implicit Euler on velocity and position,
angular velocity from torque, then torque and force are cleared.  The mesh
update block touches only rendering state and is omitted. -/
def RigidBody.integrate (b : RigidBody) (dt : ℝ) : RigidBody :=
  if b.invMass = 0 then b
  else
    let velocity := b.velocity.add (b.force.mul (dt * b.invMass))
    let position := b.position.add (velocity.mul dt)
    let angularVelocity := b.angularVelocity.add (b.torque.mul (dt * b.invInertia))
    { b with
        velocity := velocity
        position := position
        angularVelocity := angularVelocity
        torque := Vec3.zero
        force := Vec3.zero }

/-- The world bounds record `{x:20,y:20,z:20}` (main.js line 91). -/
structure Bounds where
  x : ℝ
  y : ℝ
  z : ℝ

/-- The effective half-size used by the boundary resolution
(main.js lines 112-115): sphere radius, box size/2, cylinder height/2, and
the initial value 0 for any other shape. -/
def halfSize : Shape → ℝ
  | .sphere r => r
  | .box s => s / 2
  | .cylinder _ h => h / 2
  | .custom _ => 0

/-- Ground collision branch (main.js lines 118-124): clamp `y` up to the
half-size, reflect `velocity.y` by the restitution, damp `velocity.x` and
`velocity.z` by `1 - friction`. -/
def clampGround (hs : ℝ) (b : RigidBody) : RigidBody :=
  if b.position.y < hs then
    { b with
        position := ⟨b.position.x, hs, b.position.z⟩
        velocity := ⟨b.velocity.x * (1 - b.friction), -b.velocity.y * b.restitution,
                     b.velocity.z * (1 - b.friction)⟩ }
  else b

/-- Low-wall branch on the x axis (main.js lines 128-131). -/
def clampXLow (bx hs : ℝ) (b : RigidBody) : RigidBody :=
  if b.position.x < -bx / 2 + hs then
    { b with
        position := ⟨-bx / 2 + hs, b.position.y, b.position.z⟩
        velocity := ⟨-b.velocity.x * b.restitution, b.velocity.y, b.velocity.z⟩ }
  else b

/-- High-wall branch on the x axis (main.js lines 132-135). -/
def clampXHigh (bx hs : ℝ) (b : RigidBody) : RigidBody :=
  if b.position.x > bx / 2 - hs then
    { b with
        position := ⟨bx / 2 - hs, b.position.y, b.position.z⟩
        velocity := ⟨-b.velocity.x * b.restitution, b.velocity.y, b.velocity.z⟩ }
  else b

/-- Low-wall branch on the z axis (main.js lines 128-131, loop pass `z`). -/
def clampZLow (bz hs : ℝ) (b : RigidBody) : RigidBody :=
  if b.position.z < -bz / 2 + hs then
    { b with
        position := ⟨b.position.x, b.position.y, -bz / 2 + hs⟩
        velocity := ⟨b.velocity.x, b.velocity.y, -b.velocity.z * b.restitution⟩ }
  else b

/-- High-wall branch on the z axis (main.js lines 132-135, loop pass `z`). -/
def clampZHigh (bz hs : ℝ) (b : RigidBody) : RigidBody :=
  if b.position.z > bz / 2 - hs then
    { b with
        position := ⟨b.position.x, b.position.y, bz / 2 - hs⟩
        velocity := ⟨b.velocity.x, b.velocity.y, -b.velocity.z * b.restitution⟩ }
  else b

/-- Ceiling branch (main.js lines 137-140). -/
def clampYHigh (by' hs : ℝ) (b : RigidBody) : RigidBody :=
  if b.position.y > by' - hs then
    { b with
        position := ⟨b.position.x, by' - hs, b.position.z⟩
        velocity := ⟨b.velocity.x, -b.velocity.y * b.restitution, b.velocity.z⟩ }
  else b

/-- The whole per-body ground/wall/ceiling resolution of
`PhysicsWorld.update` (main.js lines 111-141), in source order: ground, the
x axis low then high, the z axis low then high, then the ceiling. -/
def resolveBounds (bounds : Bounds) (b : RigidBody) : RigidBody :=
  let hs := halfSize b.shape
  clampYHigh bounds.y hs
    (clampZHigh bounds.z hs
      (clampZLow bounds.z hs
        (clampXHigh bounds.x hs
          (clampXLow bounds.x hs
            (clampGround hs b)))))

/-- The broadphase cell key
`floor(position.x):floor(position.y):floor(position.z)`
(main.js line 101). -/
def gridKey (p : Vec3) : ℤ × ℤ × ℤ := (⌊p.x⌋, ⌊p.y⌋, ⌊p.z⌋)

/-- Appending body index `i` to the bucket of key `k`, creating the bucket
at the end when absent — exactly the JavaScript
`if(!grid[key]) grid[key]=[]; grid[key].push(b);` on an object whose
non-index string keys keep insertion order. -/
def insertGrid (g : List ((ℤ × ℤ × ℤ) × List ℕ)) (k : ℤ × ℤ × ℤ) (i : ℕ) :
    List ((ℤ × ℤ × ℤ) × List ℕ) :=
  match g with
  | [] => [(k, [i])]
  | (k', l) :: rest =>
    if k' = k then (k', l ++ [i]) :: rest else (k', l) :: insertGrid rest k i

/-- Folding the bodies (by index, in list order) into the grid
(main.js lines 99-104).  Bodies are identified by their index in
`world.bodies`, standing in for the JavaScript object references. -/
def buildGridAux : List (ℤ × ℤ × ℤ) → ℕ → List ((ℤ × ℤ × ℤ) × List ℕ) →
    List ((ℤ × ℤ × ℤ) × List ℕ)
  | [], _, g => g
  | k :: ks, i, g => buildGridAux ks (i + 1) (insertGrid g k i)

/-- The broadphase grid of a key list. -/
def buildGrid (keys : List (ℤ × ℤ × ℤ)) : List ((ℤ × ℤ × ℤ) × List ℕ) :=
  buildGridAux keys 0 []

/-- `boxCollides` (main.js lines 200-205) on the two box sizes. -/
def boxCollides (a b : RigidBody) (sa sb : ℝ) : Prop :=
  |a.position.x - b.position.x| < (sa + sb) / 2 ∧
  |a.position.y - b.position.y| < (sa + sb) / 2 ∧
  |a.position.z - b.position.z| < (sa + sb) / 2

/-- `cylinderCollides` (main.js lines 206-213) on the two radii and heights. -/
def cylinderCollides (a b : RigidBody) (ra rb ha hb : ℝ) : Prop :=
  Real.sqrt ((a.position.x - b.position.x) * (a.position.x - b.position.x) +
      (a.position.z - b.position.z) * (a.position.z - b.position.z)) < ra + rb ∧
  |a.position.y - b.position.y| < (ha + hb) / 2

instance (a b : RigidBody) (sa sb : ℝ) : Decidable (boxCollides a b sa sb) := by
  unfold boxCollides; infer_instance

instance (a b : RigidBody) (ra rb ha hb : ℝ) :
    Decidable (cylinderCollides a b ra rb ha hb) := by
  unfold cylinderCollides; infer_instance

/-- The sphere-sphere narrowphase branch (main.js lines 150-166): overlap
test `0 < dist < radiusA+radiusB`, impulse along the normalized separation,
mass-weighted positional correction by the penetration, and one collision
counter increment. -/
def resolveSphereSphere (a b : RigidBody) (ra rb : ℝ) (count : ℕ) :
    RigidBody × RigidBody × ℕ :=
  let d := a.position.sub b.position
  let dist := d.length
  let minDist := ra + rb
  if dist < minDist ∧ dist > 0 then
    let norm := d.normalize
    let penetration := minDist - dist
    let relVel := (a.velocity.sub b.velocity).dot norm
    let impulse := (-(1 + min a.restitution b.restitution) * relVel) /
      (a.invMass + b.invMass)
    let impulseVec := norm.mul impulse
    ({ a with
        velocity := a.velocity.add (impulseVec.mul a.invMass)
        position := a.position.add
          (norm.mul (penetration * a.invMass / (a.invMass + b.invMass))) },
     { b with
        velocity := b.velocity.sub (impulseVec.mul b.invMass)
        position := b.position.sub
          (norm.mul (penetration * b.invMass / (a.invMass + b.invMass))) },
     count + 1)
  else (a, b, count)

/-- The box-box narrowphase branch (main.js lines 167-179): AABB test, the
same impulse formula on the centroid-difference normal, and the fixed 0.05
positional correction. -/
def resolveBoxBox (a b : RigidBody) (sa sb : ℝ) (count : ℕ) :
    RigidBody × RigidBody × ℕ :=
  if boxCollides a b sa sb then
    let norm := (a.position.sub b.position).normalize
    let relVel := (a.velocity.sub b.velocity).dot norm
    let impulse := (-(1 + min a.restitution b.restitution) * relVel) /
      (a.invMass + b.invMass)
    let impulseVec := norm.mul impulse
    ({ a with
        velocity := a.velocity.add (impulseVec.mul a.invMass)
        position := a.position.add
          (norm.mul (0.05 * a.invMass / (a.invMass + b.invMass))) },
     { b with
        velocity := b.velocity.sub (impulseVec.mul b.invMass)
        position := b.position.sub
          (norm.mul (0.05 * b.invMass / (a.invMass + b.invMass))) },
     count + 1)
  else (a, b, count)

/-- The cylinder-cylinder narrowphase branch (main.js lines 180-192): same
scheme as box-box behind the cylinder test. -/
def resolveCylinderCylinder (a b : RigidBody) (ra rb ha hb : ℝ) (count : ℕ) :
    RigidBody × RigidBody × ℕ :=
  if cylinderCollides a b ra rb ha hb then
    let norm := (a.position.sub b.position).normalize
    let relVel := (a.velocity.sub b.velocity).dot norm
    let impulse := (-(1 + min a.restitution b.restitution) * relVel) /
      (a.invMass + b.invMass)
    let impulseVec := norm.mul impulse
    ({ a with
        velocity := a.velocity.add (impulseVec.mul a.invMass)
        position := a.position.add
          (norm.mul (0.05 * a.invMass / (a.invMass + b.invMass))) },
     { b with
        velocity := b.velocity.sub (impulseVec.mul b.invMass)
        position := b.position.sub
          (norm.mul (0.05 * b.invMass / (a.invMass + b.invMass))) },
     count + 1)
  else (a, b, count)

/-- The placeholder body returned by an out-of-range list read.  The grid
only ever stores in-range indices, so this value is never produced by the
embedded `update`. -/
def defaultBody : RigidBody :=
  { position := Vec3.zero
    velocity := Vec3.zero
    force := Vec3.zero
    shape := Shape.custom []
    mass := 0
    invMass := 0
    restitution := 0
    friction := 0
    angularVelocity := Vec3.zero
    torque := Vec3.zero
    inertia := 0
    invInertia := 0 }

/-- One iteration of the inner narrowphase pair loop (main.js lines
147-193): dispatch on the two shape tags; matching same-kind pairs go
through their resolver and the results are written back to the body store
(JavaScript mutates the two bodies through the references held in the grid
bucket; here the store is the indexed list). -/
def resolvePair (st : List RigidBody × ℕ) (i j : ℕ) : List RigidBody × ℕ :=
  let a := st.1.getD i defaultBody
  let b := st.1.getD j defaultBody
  match a.shape, b.shape with
  | Shape.sphere ra, Shape.sphere rb =>
    let r := resolveSphereSphere a b ra rb st.2
    ((st.1.set i r.1).set j r.2.1, r.2.2)
  | Shape.box sa, Shape.box sb =>
    let r := resolveBoxBox a b sa sb st.2
    ((st.1.set i r.1).set j r.2.1, r.2.2)
  | Shape.cylinder ra ha, Shape.cylinder rb hb =>
    let r := resolveCylinderCylinder a b ra rb ha hb st.2
    ((st.1.set i r.1).set j r.2.1, r.2.2)
  | _, _ => st

/-- The ordered pairs `(i, j)` with `i` before `j` visited by the nested
`for` loops over one grid bucket (main.js lines 146-149). -/
def cellPairs : List ℕ → List (ℕ × ℕ)
  | [] => []
  | i :: rest => (rest.map fun j => (i, j)) ++ cellPairs rest

/-- Threading the body store and the collision counter through a list of
candidate pairs. -/
def runPairs (ps : List (ℕ × ℕ)) (st : List RigidBody × ℕ) :
    List RigidBody × ℕ :=
  ps.foldl (fun s p => resolvePair s p.1 p.2) st

/-- The object-collision phase (main.js lines 144-196): every grid cell in
insertion order, every in-cell pair in loop order. -/
def narrowphase (grid : List ((ℤ × ℤ × ℤ) × List ℕ))
    (st : List RigidBody × ℕ) : List RigidBody × ℕ :=
  grid.foldl (fun s cell => runPairs (cellPairs cell.2) s) st

/-- The `PhysicsWorld` state (main.js lines 87-93). -/
structure PhysicsWorld where
  bodies : List RigidBody
  gravity : Vec3
  bounds : Bounds
  collisionCount : ℕ

/-- The broadphase keys taken at entry to `update`, before the
gravity/integration loop runs (main.js lines 99-104 precede lines 105-108). -/
def PhysicsWorld.preGridKeys (w : PhysicsWorld) : List (ℤ × ℤ × ℤ) :=
  w.bodies.map fun b => gridKey b.position

/-- The gravity application and integration loop (main.js lines 105-108). -/
def PhysicsWorld.movedBodies (w : PhysicsWorld) (dt : ℝ) : List RigidBody :=
  w.bodies.map fun b => (b.applyForce (w.gravity.mul b.mass)).integrate dt

/-- The bodies after the ground/bounds loop (main.js lines 111-141). -/
def PhysicsWorld.clampedBodies (w : PhysicsWorld) (dt : ℝ) : List RigidBody :=
  (w.movedBodies dt).map (resolveBounds w.bounds)

/-- `PhysicsWorld.update(dt)` (main.js lines 96-197): reset the collision
counter, hash every body by its current (pre-integration) position, apply
gravity and integrate, resolve the world bounds, then run the narrowphase
over the grid buckets (whose indices refer to the — by now moved and
clamped — bodies). -/
def PhysicsWorld.update (w : PhysicsWorld) (dt : ℝ) : PhysicsWorld :=
  let grid := buildGrid w.preGridKeys
  let st := narrowphase grid (w.clampedBodies dt, 0)
  { bodies := st.1
    gravity := w.gravity
    bounds := w.bounds
    collisionCount := st.2 }

/-- Modelled from the spec: the update ordering asserted by the spec (§9,
"candidate-pair generation as applying to post-integration positions for the
current step"), in which the broadphase keys are taken after the
gravity/integration loop.  This definition exists only to be compared with
`PhysicsWorld.update`, whose grid is hashed from the pre-integration
positions. -/
def PhysicsWorld.updateSpecPostGrid (w : PhysicsWorld) (dt : ℝ) : PhysicsWorld :=
  let grid := buildGrid ((w.movedBodies dt).map fun b => gridKey b.position)
  let st := narrowphase grid (w.clampedBodies dt, 0)
  { bodies := st.1
    gravity := w.gravity
    bounds := w.bounds
    collisionCount := st.2 }

/-- The JavaScript `a || b` on numbers whose only falsy value here is `0`
(`undefined` is encoded as `0`; the two are interchangeable on the left of
`||` and never meet arithmetic in the embedded paths). -/
def jsOr (a b : ℝ) : ℝ := if a = 0 then b else a

/-- One record of the exported scene JSON (save handler, main.js lines
375-384); the `color` field is rendering-only and omitted. -/
structure SceneRecord where
  type : ℕ
  position : Vec3
  velocity : Vec3
  angularVelocity : Vec3
  mass : ℝ
  friction : ℝ
  restitution : ℝ
  size : ℝ
  height : ℝ

/-- The save handler's per-body record (main.js lines 376-380):
`size: b.shape.size || b.shape.radius`, `height: b.shape.height`. -/
def saveBody (b : RigidBody) : SceneRecord :=
  { type := b.shape.typeTag
    position := b.position
    velocity := b.velocity
    angularVelocity := b.angularVelocity
    mass := b.mass
    friction := b.friction
    restitution := b.restitution
    size := jsOr b.shape.sizeField b.shape.radiusField
    height := b.shape.heightField }

/-- The import handler's per-record reconstruction (main.js lines 401-431):
shape by tag (`CylinderShape(obj.size, obj.height || 2)`), then a fresh
`RigidBody` whose velocity, angular velocity, friction and restitution are
overwritten from the record.  A record with no matching tag branch leaves
`shape` undefined and the `RigidBody` constructor faults on it; that case is
`none`. -/
def loadBody (r : SceneRecord) : Option RigidBody :=
  let shape? : Option Shape :=
    if r.type = 0 then some (Shape.sphere r.size)
    else if r.type = 1 then some (Shape.box r.size)
    else if r.type = 2 then some (Shape.cylinder r.size (jsOr r.height 2))
    else none
  shape?.map fun shape =>
    { mkRigidBody r.position shape r.mass with
        velocity := r.velocity
        angularVelocity := r.angularVelocity
        friction := r.friction
        restitution := r.restitution }

/-- The observable fields named by the round-trip contract: shape kind and
dimensions, position, velocity, angular velocity, mass, friction,
restitution. -/
def obsFields (b : RigidBody) : Shape × Vec3 × Vec3 × Vec3 × ℝ × ℝ × ℝ :=
  (b.shape, b.position, b.velocity, b.angularVelocity, b.mass, b.friction,
   b.restitution)

/-- A concrete static body carrying a nonzero accumulated force, used to
exercise the `invMass = 0` early return of `integrate`. -/
def staticWitnessBody : RigidBody :=
  { position := ⟨1, 2, 3⟩
    velocity := ⟨4, 5, 6⟩
    force := ⟨5, 0, 0⟩
    shape := Shape.sphere 1
    mass := 0
    invMass := 0
    restitution := 0.35
    friction := 0.3
    angularVelocity := Vec3.zero
    torque := Vec3.zero
    inertia := 0
    invInertia := 0 }

/-- Claim C3 counterexample: a body of mass 0 (hence `invMass = 0`) with an
accumulated force of (1,0,0) still carries that force after `integrate`
returns — the `invMass===0` early return skips the force reset, so the
claim's "for every body (including bodies with invMass == 0)" is false. -/
theorem spec_C3_counterexample :
    (((mkRigidBody Vec3.zero (Shape.sphere 1) 0).applyForce ⟨1, 0, 0⟩).integrate
      1).force ≠ Vec3.zero := by
  have h : ((mkRigidBody Vec3.zero (Shape.sphere 1) 0).applyForce
      ⟨1, 0, 0⟩).invMass = 0 := by
    simp [mkRigidBody, RigidBody.applyForce]
  rw [RigidBody.integrate, if_pos h]
  simp [mkRigidBody, RigidBody.applyForce, Vec3.add, Vec3.zero, Vec3.ext_iff]

/-- Claim C3 (amended): the force accumulator is reset to the zero vector by
`integrate` for every body with `invMass ≠ 0`; a body with `invMass = 0` is
returned unchanged by the early return, so its accumulated force persists. -/
theorem spec_C3_force_reset_dynamic (b : RigidBody) (dt : ℝ)
    (h : b.invMass ≠ 0) : (b.integrate dt).force = Vec3.zero := by
  rw [RigidBody.integrate, if_neg h]

/-- Witness for the amended C3 at a concrete dynamic body. -/
theorem spec_C3_witness :
    (mkRigidBody Vec3.zero (Shape.sphere 1) 2).invMass ≠ 0 ∧
    ((mkRigidBody Vec3.zero (Shape.sphere 1) 2).integrate 1).force = Vec3.zero := by
  have h : (mkRigidBody Vec3.zero (Shape.sphere 1) 2).invMass ≠ 0 := by
    simp [mkRigidBody]
  exact ⟨h, spec_C3_force_reset_dynamic _ _ h⟩

/-- Claim C4: a body with `invMass = 0` keeps its position and velocity
across `integrate`, whatever force has been accumulated and whatever `dt`;
and the constructor encodes every non-positive mass (zero or negative) as
`invMass = 0`, also after further `applyForce` calls. -/
theorem spec_C4_static_invariance (b : RigidBody) (dt : ℝ) (p : Vec3)
    (s : Shape) (m : ℝ) (f : Vec3) (hb : b.invMass = 0) (hm : m ≤ 0) :
    (b.integrate dt).position = b.position ∧
    (b.integrate dt).velocity = b.velocity ∧
    ((mkRigidBody p s m).applyForce f).invMass = 0 := by
  have h : b.integrate dt = b := by rw [RigidBody.integrate, if_pos hb]
  have hm' : ¬ m > 0 := not_lt.2 hm
  refine ⟨by rw [h], by rw [h], ?_⟩
  simp [mkRigidBody, RigidBody.applyForce, hm']

/-- Witness for C4: a static body with accumulated force (5,0,0), and a
negative construction mass. -/
theorem spec_C4_witness :
    staticWitnessBody.invMass = 0 ∧ (-2 : ℝ) ≤ 0 ∧
    ((staticWitnessBody.integrate 1).position = staticWitnessBody.position ∧
     (staticWitnessBody.integrate 1).velocity = staticWitnessBody.velocity ∧
     ((mkRigidBody ⟨0, 0, 0⟩ (Shape.box 1) (-2)).applyForce ⟨7, 0, 0⟩).invMass = 0) :=
  ⟨rfl, by norm_num,
    spec_C4_static_invariance staticWitnessBody 1 ⟨0, 0, 0⟩ (Shape.box 1) (-2)
      ⟨7, 0, 0⟩ rfl (by norm_num)⟩

/-- Claim C6 counterexample: constructing a sphere of radius -1 does not
fail — there is no validation anywhere in the shape constructors — and the
resulting shape object propagates its negative extent into the simulation:
`halfSize` (the boundary-resolution extent) becomes negative and a
`RigidBody` adopts the shape unchanged.  The same holds for a box of edge
-2 and a cylinder of height -4. -/
theorem spec_C6_counterexample :
    halfSize (Shape.sphere (-1)) = -1 ∧
    (mkRigidBody Vec3.zero (Shape.sphere (-1)) 1).shape = Shape.sphere (-1) ∧
    halfSize (Shape.box (-2)) = -1 ∧
    halfSize (Shape.cylinder 1 (-4)) = -2 := by
  refine ⟨rfl, rfl, ?_, ?_⟩ <;> norm_num [halfSize]

/-- Claim C6 (amended): shape construction performs no validation: for every
real size parameters, including non-positive ones, the constructors store the
given dimensions unchanged and those dimensions flow unaltered into the
boundary-resolution extent `halfSize`. -/
theorem spec_C6_no_validation (r e rr hh : ℝ) :
    (Shape.sphere r).radiusField = r ∧ (Shape.box e).sizeField = e ∧
    (Shape.cylinder rr hh).radiusField = rr ∧
    (Shape.cylinder rr hh).heightField = hh ∧
    halfSize (Shape.sphere r) = r ∧ halfSize (Shape.box e) = e / 2 ∧
    halfSize (Shape.cylinder rr hh) = hh / 2 :=
  ⟨rfl, rfl, rfl, rfl, rfl, rfl, rfl⟩

lemma clampGround_y (hs : ℝ) (b : RigidBody) :
    hs ≤ (clampGround hs b).position.y := by
  rw [clampGround]; split_ifs with h
  · exact le_refl _
  · exact le_of_not_lt h

lemma clampGround_frame (hs : ℝ) (b : RigidBody) :
    (clampGround hs b).position.x = b.position.x ∧
    (clampGround hs b).position.z = b.position.z ∧
    (clampGround hs b).shape = b.shape := by
  rw [clampGround]; split_ifs <;> exact ⟨rfl, rfl, rfl⟩

lemma clampXLow_x (bx hs : ℝ) (b : RigidBody) :
    -bx / 2 + hs ≤ (clampXLow bx hs b).position.x := by
  rw [clampXLow]; split_ifs with h
  · exact le_refl _
  · exact le_of_not_lt h

lemma clampXLow_frame (bx hs : ℝ) (b : RigidBody) :
    (clampXLow bx hs b).position.y = b.position.y ∧
    (clampXLow bx hs b).position.z = b.position.z ∧
    (clampXLow bx hs b).shape = b.shape := by
  rw [clampXLow]; split_ifs <;> exact ⟨rfl, rfl, rfl⟩

lemma clampXHigh_x_le (bx hs : ℝ) (b : RigidBody) :
    (clampXHigh bx hs b).position.x ≤ bx / 2 - hs := by
  rw [clampXHigh]; split_ifs with h
  · exact le_refl _
  · exact le_of_not_lt h

lemma clampXHigh_x_ge (bx hs : ℝ) (b : RigidBody) (hfit : 2 * hs ≤ bx)
    (hx : -bx / 2 + hs ≤ b.position.x) :
    -bx / 2 + hs ≤ (clampXHigh bx hs b).position.x := by
  rw [clampXHigh]; split_ifs with h
  · show -bx / 2 + hs ≤ bx / 2 - hs
    linarith
  · exact hx

lemma clampXHigh_frame (bx hs : ℝ) (b : RigidBody) :
    (clampXHigh bx hs b).position.y = b.position.y ∧
    (clampXHigh bx hs b).position.z = b.position.z ∧
    (clampXHigh bx hs b).shape = b.shape := by
  rw [clampXHigh]; split_ifs <;> exact ⟨rfl, rfl, rfl⟩

lemma clampZLow_z (bz hs : ℝ) (b : RigidBody) :
    -bz / 2 + hs ≤ (clampZLow bz hs b).position.z := by
  rw [clampZLow]; split_ifs with h
  · exact le_refl _
  · exact le_of_not_lt h

lemma clampZLow_frame (bz hs : ℝ) (b : RigidBody) :
    (clampZLow bz hs b).position.x = b.position.x ∧
    (clampZLow bz hs b).position.y = b.position.y ∧
    (clampZLow bz hs b).shape = b.shape := by
  rw [clampZLow]; split_ifs <;> exact ⟨rfl, rfl, rfl⟩

lemma clampZHigh_z_le (bz hs : ℝ) (b : RigidBody) :
    (clampZHigh bz hs b).position.z ≤ bz / 2 - hs := by
  rw [clampZHigh]; split_ifs with h
  · exact le_refl _
  · exact le_of_not_lt h

lemma clampZHigh_z_ge (bz hs : ℝ) (b : RigidBody) (hfit : 2 * hs ≤ bz)
    (hz : -bz / 2 + hs ≤ b.position.z) :
    -bz / 2 + hs ≤ (clampZHigh bz hs b).position.z := by
  rw [clampZHigh]; split_ifs with h
  · show -bz / 2 + hs ≤ bz / 2 - hs
    linarith
  · exact hz

lemma clampZHigh_frame (bz hs : ℝ) (b : RigidBody) :
    (clampZHigh bz hs b).position.x = b.position.x ∧
    (clampZHigh bz hs b).position.y = b.position.y ∧
    (clampZHigh bz hs b).shape = b.shape := by
  rw [clampZHigh]; split_ifs <;> exact ⟨rfl, rfl, rfl⟩

lemma clampYHigh_y_le (by' hs : ℝ) (b : RigidBody) :
    (clampYHigh by' hs b).position.y ≤ by' - hs := by
  rw [clampYHigh]; split_ifs with h
  · exact le_refl _
  · exact le_of_not_lt h

lemma clampYHigh_y_ge (by' hs : ℝ) (b : RigidBody) (hfit : 2 * hs ≤ by')
    (hy : hs ≤ b.position.y) :
    hs ≤ (clampYHigh by' hs b).position.y := by
  rw [clampYHigh]; split_ifs with h
  · show hs ≤ by' - hs
    linarith
  · exact hy

lemma clampYHigh_frame (by' hs : ℝ) (b : RigidBody) :
    (clampYHigh by' hs b).position.x = b.position.x ∧
    (clampYHigh by' hs b).position.z = b.position.z ∧
    (clampYHigh by' hs b).shape = b.shape := by
  rw [clampYHigh]; split_ifs <;> exact ⟨rfl, rfl, rfl⟩

lemma clampGround_id (hs : ℝ) (b : RigidBody) (h : hs ≤ b.position.y) :
    clampGround hs b = b := by
  rw [clampGround, if_neg (not_lt.2 h)]

lemma clampXLow_id (bx hs : ℝ) (b : RigidBody)
    (h : -bx / 2 + hs ≤ b.position.x) : clampXLow bx hs b = b := by
  rw [clampXLow, if_neg (not_lt.2 h)]

lemma clampXHigh_id (bx hs : ℝ) (b : RigidBody)
    (h : b.position.x ≤ bx / 2 - hs) : clampXHigh bx hs b = b := by
  rw [clampXHigh, if_neg (not_lt.2 h)]

lemma clampZLow_id (bz hs : ℝ) (b : RigidBody)
    (h : -bz / 2 + hs ≤ b.position.z) : clampZLow bz hs b = b := by
  rw [clampZLow, if_neg (not_lt.2 h)]

lemma clampZHigh_id (bz hs : ℝ) (b : RigidBody)
    (h : b.position.z ≤ bz / 2 - hs) : clampZHigh bz hs b = b := by
  rw [clampZHigh, if_neg (not_lt.2 h)]

lemma clampYHigh_id (by' hs : ℝ) (b : RigidBody)
    (h : b.position.y ≤ by' - hs) : clampYHigh by' hs b = b := by
  rw [clampYHigh, if_neg (not_lt.2 h)]

/-- After one boundary resolution of a body whose half-size fits inside all
three bound extents, the position lies in the clamped ranges on every axis
and the shape is unchanged. -/
lemma resolveBounds_range (bounds : Bounds) (b : RigidBody)
    (hx : 2 * halfSize b.shape ≤ bounds.x)
    (hy : 2 * halfSize b.shape ≤ bounds.y)
    (hz : 2 * halfSize b.shape ≤ bounds.z) :
    (resolveBounds bounds b).shape = b.shape ∧
    halfSize b.shape ≤ (resolveBounds bounds b).position.y ∧
    (resolveBounds bounds b).position.y ≤ bounds.y - halfSize b.shape ∧
    -bounds.x / 2 + halfSize b.shape ≤ (resolveBounds bounds b).position.x ∧
    (resolveBounds bounds b).position.x ≤ bounds.x / 2 - halfSize b.shape ∧
    -bounds.z / 2 + halfSize b.shape ≤ (resolveBounds bounds b).position.z ∧
    (resolveBounds bounds b).position.z ≤ bounds.z / 2 - halfSize b.shape := by
  simp only [resolveBounds]
  set hs := halfSize b.shape with hhs
  set b1 := clampGround hs b with hb1
  set b2 := clampXLow bounds.x hs b1 with hb2
  set b3 := clampXHigh bounds.x hs b2 with hb3
  set b4 := clampZLow bounds.z hs b3 with hb4
  set b5 := clampZHigh bounds.z hs b4 with hb5
  obtain ⟨f1x, f1z, f1s⟩ := clampGround_frame hs b
  obtain ⟨f2y, f2z, f2s⟩ := clampXLow_frame bounds.x hs b1
  obtain ⟨f3y, f3z, f3s⟩ := clampXHigh_frame bounds.x hs b2
  obtain ⟨f4x, f4y, f4s⟩ := clampZLow_frame bounds.z hs b3
  obtain ⟨f5x, f5y, f5s⟩ := clampZHigh_frame bounds.z hs b4
  obtain ⟨f6x, f6z, f6s⟩ := clampYHigh_frame bounds.y hs b5
  rw [← hb1] at f1x f1z f1s
  rw [← hb2] at f2y f2z f2s
  rw [← hb3] at f3y f3z f3s
  rw [← hb4] at f4x f4y f4s
  rw [← hb5] at f5x f5y f5s
  refine ⟨?_, ?_, ?_, ?_, ?_, ?_, ?_⟩
  · rw [f6s, f5s, f4s, f3s, f2s, f1s]
  · have h1 := clampGround_y hs b
    rw [← hb1] at h1
    refine clampYHigh_y_ge bounds.y hs b5 hy ?_
    rw [f5y, f4y, f3y, f2y]; exact h1
  · exact clampYHigh_y_le bounds.y hs b5
  · have h2 := clampXLow_x bounds.x hs b1
    rw [← hb2] at h2
    have h3 := clampXHigh_x_ge bounds.x hs b2 hx h2
    rw [f6x, f5x, f4x]
    exact h3
  · have h3 := clampXHigh_x_le bounds.x hs b2
    rw [f6x, f5x, f4x]
    exact h3
  · have h4 := clampZLow_z bounds.z hs b3
    rw [← hb4] at h4
    have h5 := clampZHigh_z_ge bounds.z hs b4 hz h4
    rw [f6z]
    exact h5
  · rw [f6z]
    exact clampZHigh_z_le bounds.z hs b4

/-- A body already inside the clamped ranges on every axis is a fixed point
of the boundary resolution: no branch fires. -/
lemma resolveBounds_fixed (bounds : Bounds) (b : RigidBody)
    (h1 : halfSize b.shape ≤ b.position.y)
    (h2 : b.position.y ≤ bounds.y - halfSize b.shape)
    (h3 : -bounds.x / 2 + halfSize b.shape ≤ b.position.x)
    (h4 : b.position.x ≤ bounds.x / 2 - halfSize b.shape)
    (h5 : -bounds.z / 2 + halfSize b.shape ≤ b.position.z)
    (h6 : b.position.z ≤ bounds.z / 2 - halfSize b.shape) :
    resolveBounds bounds b = b := by
  simp only [resolveBounds]
  rw [clampGround_id _ _ h1, clampXLow_id _ _ _ h3, clampXHigh_id _ _ _ h4,
    clampZLow_id _ _ _ h5, clampZHigh_id _ _ _ h6, clampYHigh_id _ _ _ h2]

/-- Claim C5 (amended): the ground/wall/ceiling resolution is idempotent for
every body whose effective half-size fits inside the bounds (twice the
half-size at most each bound extent); an oversized body makes opposite
clamps re-fire each pass (see the counterexample), so the unrestricted claim
fails. -/
theorem spec_C5_clamp_idempotent (bounds : Bounds) (b : RigidBody)
    (hx : 2 * halfSize b.shape ≤ bounds.x)
    (hy : 2 * halfSize b.shape ≤ bounds.y)
    (hz : 2 * halfSize b.shape ≤ bounds.z) :
    resolveBounds bounds (resolveBounds bounds b) = resolveBounds bounds b := by
  obtain ⟨hsh, h1, h2, h3, h4, h5, h6⟩ := resolveBounds_range bounds b hx hy hz
  refine resolveBounds_fixed bounds (resolveBounds bounds b) ?_ ?_ ?_ ?_ ?_ ?_ <;>
    rw [hsh]
  · exact h1
  · exact h2
  · exact h3
  · exact h4
  · exact h5
  · exact h6

/-- The default world bounds `{x:20,y:20,z:20}` (main.js line 91). -/
def stdBounds : Bounds := ⟨20, 20, 20⟩

/-- A sphere body of radius 15 — too large for the 20-unit bounds — with
upward velocity, restitution 1/2 and zero friction. -/
def oversizedBody : RigidBody :=
  { position := ⟨0, 0, 0⟩
    velocity := ⟨0, 1, 0⟩
    force := Vec3.zero
    shape := Shape.sphere 15
    mass := 1
    invMass := 1
    restitution := 1 / 2
    friction := 0
    angularVelocity := Vec3.zero
    torque := Vec3.zero
    inertia := 90
    invInertia := 1 / 90 }

/-- Claim C5 counterexample: for a sphere of radius 15 inside the default
20-unit bounds, the ground and ceiling clamps both fire on every pass, so a
second application of the boundary resolution reflects and damps
`velocity.y` again (1/16 instead of 1/4): the step is not idempotent for
every body. -/
theorem spec_C5_counterexample :
    (resolveBounds stdBounds (resolveBounds stdBounds oversizedBody)).velocity.y ≠
      (resolveBounds stdBounds oversizedBody).velocity.y := by
  norm_num [resolveBounds, clampGround, clampXLow, clampXHigh, clampZLow,
    clampZHigh, clampYHigh, halfSize, oversizedBody, stdBounds, Vec3.zero]

/-- A sphere body of radius 1/2 resting inside the default bounds. -/
def fittingBody : RigidBody :=
  { position := ⟨1, 7, 2⟩
    velocity := ⟨3, -1, 0⟩
    force := Vec3.zero
    shape := Shape.sphere (1 / 2)
    mass := 1
    invMass := 1
    restitution := 1 / 2
    friction := 1 / 10
    angularVelocity := Vec3.zero
    torque := Vec3.zero
    inertia := 1 / 10
    invInertia := 10 }

/-- Witness for the amended C5 at a concrete in-bounds sphere. -/
theorem spec_C5_witness :
    2 * halfSize fittingBody.shape ≤ stdBounds.x ∧
    2 * halfSize fittingBody.shape ≤ stdBounds.y ∧
    2 * halfSize fittingBody.shape ≤ stdBounds.z ∧
    resolveBounds stdBounds (resolveBounds stdBounds fittingBody) =
      resolveBounds stdBounds fittingBody := by
  have hx : 2 * halfSize fittingBody.shape ≤ stdBounds.x := by
    norm_num [halfSize, fittingBody, stdBounds]
  have hy : 2 * halfSize fittingBody.shape ≤ stdBounds.y := by
    norm_num [halfSize, fittingBody, stdBounds]
  have hz : 2 * halfSize fittingBody.shape ≤ stdBounds.z := by
    norm_num [halfSize, fittingBody, stdBounds]
  exact ⟨hx, hy, hz, spec_C5_clamp_idempotent stdBounds fittingBody hx hy hz⟩

/-- A nonzero vector normalized by the code's `normalize` has unit dot
product with itself. -/
lemma normalize_dot_self (d : Vec3) (h : d.length ≠ 0) :
    d.normalize.dot d.normalize = 1 := by
  have hsq : d.x * d.x + d.y * d.y + d.z * d.z = d.length * d.length := by
    rw [Vec3.length, Real.mul_self_sqrt (add_nonneg
      (add_nonneg (mul_self_nonneg _) (mul_self_nonneg _)) (mul_self_nonneg _))]
  rw [Vec3.normalize, if_neg h, Vec3.dot, Vec3.mul]
  dsimp only
  field_simp
  linarith [hsq]

/-- Claim C1: in the sphere-sphere narrowphase branch (the code reached for
an overlapping same-cell sphere pair, main.js lines 150-166), two spheres of
equal mass `m > 0` and restitution 1 that overlap (`0 < dist < ra + rb`) and
move head-on along the line of centers with signed speeds `v` and `-v` leave
the resolution with their velocities exactly exchanged (`-v` and `v`; exact
in real arithmetic, hence within any numerical tolerance), and the collision
counter is incremented by exactly 1 for the pair.  `n` is the code's
collision normal, pointing from body B to body A, so `a.velocity = n.mul
(-v)` is body A moving with signed speed `v` toward B. -/
theorem spec_C1_elastic_sphere_swap (a b : RigidBody) (ra rb m v : ℝ) (c : ℕ)
    (hm : 0 < m) (hma : a.mass = m) (hmb : b.mass = m)
    (hia : a.invMass = 1 / m) (hib : b.invMass = 1 / m)
    (hra : a.restitution = 1) (hrb : b.restitution = 1)
    (hd0 : 0 < (a.position.sub b.position).length)
    (hdm : (a.position.sub b.position).length < ra + rb)
    (hva : a.velocity = ((a.position.sub b.position).normalize).mul (-v))
    (hvb : b.velocity = ((a.position.sub b.position).normalize).mul v) :
    (resolveSphereSphere a b ra rb c).1.velocity =
      ((a.position.sub b.position).normalize).mul v ∧
    (resolveSphereSphere a b ra rb c).2.1.velocity =
      ((a.position.sub b.position).normalize).mul (-v) ∧
    (resolveSphereSphere a b ra rb c).2.2 = c + 1 := by
  have hm' : m ≠ 0 := ne_of_gt hm
  have hnn := normalize_dot_self (a.position.sub b.position) (ne_of_gt hd0)
  have hrel : (a.velocity.sub b.velocity).dot
      ((a.position.sub b.position).normalize) = -2 * v := by
    rw [hva, hvb]
    have hexp : ∀ u : Vec3, ((u.mul (-v)).sub (u.mul v)).dot u =
        -2 * v * (u.dot u) := by
      intro u
      rw [Vec3.mul, Vec3.mul, Vec3.sub, Vec3.dot, Vec3.dot]
      dsimp only
      ring
    rw [hexp, hnn, mul_one]
  simp only [resolveSphereSphere]
  rw [if_pos ⟨hdm, hd0⟩]
  dsimp only
  rw [hra, hrb, hia, hib, min_self, hrel]
  refine ⟨?_, ?_, rfl⟩
  · rw [hva]
    ext <;> simp only [Vec3.mul, Vec3.add] <;> field_simp <;> ring
  · rw [hvb]
    ext <;> simp only [Vec3.mul, Vec3.sub] <;> field_simp <;> ring

/-- One of two equal unit-mass spheres of radius 3/5 approaching head-on
along the x axis with speed 2, overlapping at distance 1. -/
def collA : RigidBody :=
  { position := ⟨0, 0, 0⟩
    velocity := ⟨2, 0, 0⟩
    force := Vec3.zero
    shape := Shape.sphere (3 / 5)
    mass := 1
    invMass := 1
    restitution := 1
    friction := 3 / 10
    angularVelocity := Vec3.zero
    torque := Vec3.zero
    inertia := 1
    invInertia := 1 }

/-- The partner sphere of `collA`, one unit along x, moving back at it. -/
def collB : RigidBody :=
  { collA with position := ⟨1, 0, 0⟩, velocity := ⟨-2, 0, 0⟩ }

/-- Witness for C1: two overlapping unit-mass radius-3/5 spheres at distance
one, closing head-on with speed 2 each. -/
theorem spec_C1_witness :
    (0 : ℝ) < 1 ∧ collA.mass = 1 ∧ collB.mass = 1 ∧
    collA.invMass = 1 / 1 ∧ collB.invMass = 1 / 1 ∧
    collA.restitution = 1 ∧ collB.restitution = 1 ∧
    0 < (collA.position.sub collB.position).length ∧
    (collA.position.sub collB.position).length < 3 / 5 + 3 / 5 ∧
    collA.velocity = ((collA.position.sub collB.position).normalize).mul (-2) ∧
    collB.velocity = ((collA.position.sub collB.position).normalize).mul 2 ∧
    ((resolveSphereSphere collA collB (3 / 5) (3 / 5) 0).1.velocity =
      ((collA.position.sub collB.position).normalize).mul 2 ∧
    (resolveSphereSphere collA collB (3 / 5) (3 / 5) 0).2.1.velocity =
      ((collA.position.sub collB.position).normalize).mul (-2) ∧
    (resolveSphereSphere collA collB (3 / 5) (3 / 5) 0).2.2 = 0 + 1) := by
  have hsub : collA.position.sub collB.position = ⟨-1, 0, 0⟩ := by
    rw [collA, collB]
    rw [Vec3.sub]
    norm_num
  have hlen : (collA.position.sub collB.position).length = 1 := by
    rw [hsub, Vec3.length]
    norm_num
  have hn : (collA.position.sub collB.position).normalize = ⟨-1, 0, 0⟩ := by
    rw [Vec3.normalize, hlen]
    norm_num [hsub, Vec3.mul]
  have hd0 : 0 < (collA.position.sub collB.position).length := by
    rw [hlen]; norm_num
  have hdm : (collA.position.sub collB.position).length < 3 / 5 + 3 / 5 := by
    rw [hlen]; norm_num
  have hva : collA.velocity =
      ((collA.position.sub collB.position).normalize).mul (-2) := by
    rw [hn, collA, Vec3.mul]
    norm_num
  have hvb : collB.velocity =
      ((collA.position.sub collB.position).normalize).mul 2 := by
    rw [hn, collB, Vec3.mul]
    norm_num
  exact ⟨one_pos, rfl, rfl, by norm_num [collA], by norm_num [collA, collB],
    rfl, rfl, hd0, hdm, hva, hvb,
    spec_C1_elastic_sphere_swap collA collB (3 / 5) (3 / 5) 1 2 0 one_pos rfl
      rfl (by norm_num [collA]) (by norm_num [collA, collB]) rfl rfl hd0 hdm
      hva hvb⟩

/-- The per-body fields never written by `update`: shape, mass, inverse
mass, inertia, inverse inertia, friction, restitution. -/
def staticFields (b : RigidBody) : Shape × ℝ × ℝ × ℝ × ℝ × ℝ × ℝ :=
  (b.shape, b.mass, b.invMass, b.inertia, b.invInertia, b.friction,
   b.restitution)

lemma staticFields_applyForce (b : RigidBody) (f : Vec3) :
    staticFields (b.applyForce f) = staticFields b := rfl

lemma staticFields_integrate (b : RigidBody) (dt : ℝ) :
    staticFields (b.integrate dt) = staticFields b := by
  rw [RigidBody.integrate]; split_ifs <;> rfl

lemma staticFields_clampGround (hs : ℝ) (b : RigidBody) :
    staticFields (clampGround hs b) = staticFields b := by
  rw [clampGround]; split_ifs <;> rfl

lemma staticFields_clampXLow (bx hs : ℝ) (b : RigidBody) :
    staticFields (clampXLow bx hs b) = staticFields b := by
  rw [clampXLow]; split_ifs <;> rfl

lemma staticFields_clampXHigh (bx hs : ℝ) (b : RigidBody) :
    staticFields (clampXHigh bx hs b) = staticFields b := by
  rw [clampXHigh]; split_ifs <;> rfl

lemma staticFields_clampZLow (bz hs : ℝ) (b : RigidBody) :
    staticFields (clampZLow bz hs b) = staticFields b := by
  rw [clampZLow]; split_ifs <;> rfl

lemma staticFields_clampZHigh (bz hs : ℝ) (b : RigidBody) :
    staticFields (clampZHigh bz hs b) = staticFields b := by
  rw [clampZHigh]; split_ifs <;> rfl

lemma staticFields_clampYHigh (by' hs : ℝ) (b : RigidBody) :
    staticFields (clampYHigh by' hs b) = staticFields b := by
  rw [clampYHigh]; split_ifs <;> rfl

lemma staticFields_resolveBounds (bounds : Bounds) (b : RigidBody) :
    staticFields (resolveBounds bounds b) = staticFields b := by
  simp only [resolveBounds]
  rw [staticFields_clampYHigh, staticFields_clampZHigh, staticFields_clampZLow,
    staticFields_clampXHigh, staticFields_clampXLow, staticFields_clampGround]

lemma staticFields_resolveSS (a b : RigidBody) (ra rb : ℝ) (c : ℕ) :
    staticFields (resolveSphereSphere a b ra rb c).1 = staticFields a ∧
    staticFields (resolveSphereSphere a b ra rb c).2.1 = staticFields b := by
  simp only [resolveSphereSphere]; split_ifs <;> exact ⟨rfl, rfl⟩

lemma staticFields_resolveBB (a b : RigidBody) (sa sb : ℝ) (c : ℕ) :
    staticFields (resolveBoxBox a b sa sb c).1 = staticFields a ∧
    staticFields (resolveBoxBox a b sa sb c).2.1 = staticFields b := by
  simp only [resolveBoxBox]; split_ifs <;> exact ⟨rfl, rfl⟩

lemma staticFields_resolveCC (a b : RigidBody) (ra rb ha hb : ℝ) (c : ℕ) :
    staticFields (resolveCylinderCylinder a b ra rb ha hb c).1 = staticFields a ∧
    staticFields (resolveCylinderCylinder a b ra rb ha hb c).2.1 = staticFields b := by
  simp only [resolveCylinderCylinder]; split_ifs <;> exact ⟨rfl, rfl⟩

/-- Writing into a list an element that agrees with the overwritten slot
under an observation `f` cannot change any slot's observation. -/
lemma getD_set_preserve {α β : Type} (d : α) (f : α → β) :
    ∀ (l : List α) (i k : ℕ) (x : α), f x = f (l.getD i d) →
      f ((l.set i x).getD k d) = f (l.getD k d) := by
  intro l
  induction l with
  | nil => intro i k x _; rfl
  | cons a t ih =>
    intro i k x hx
    cases i with
    | zero =>
      cases k with
      | zero => simpa using hx
      | succ k' => rfl
    | succ i' =>
      cases k with
      | zero => rfl
      | succ k' => exact ih i' k' x (by simpa using hx)

lemma length_resolvePair (st : List RigidBody × ℕ) (i j : ℕ) :
    (resolvePair st i j).1.length = st.1.length := by
  simp only [resolvePair]
  split <;> simp [List.length_set]

/-- Two writes that each preserve `staticFields` of the slot they replace
leave `staticFields` unchanged at every index. -/
lemma set_set_staticFields (l : List RigidBody) (i j k : ℕ) (x y : RigidBody)
    (hx : staticFields x = staticFields (l.getD i defaultBody))
    (hy : staticFields y = staticFields (l.getD j defaultBody)) :
    staticFields (((l.set i x).set j y).getD k defaultBody) =
      staticFields (l.getD k defaultBody) := by
  have h1 := getD_set_preserve defaultBody staticFields l i j x hx
  refine (getD_set_preserve defaultBody staticFields _ j k y ?_).trans
    (getD_set_preserve defaultBody staticFields l i k x hx)
  rw [hy, ← h1]

lemma staticFields_resolvePair (st : List RigidBody × ℕ) (i j k : ℕ) :
    staticFields ((resolvePair st i j).1.getD k defaultBody) =
      staticFields (st.1.getD k defaultBody) := by
  simp only [resolvePair]
  split
  · exact set_set_staticFields _ _ _ _ _ _
      (staticFields_resolveSS _ _ _ _ _).1 (staticFields_resolveSS _ _ _ _ _).2
  · exact set_set_staticFields _ _ _ _ _ _
      (staticFields_resolveBB _ _ _ _ _).1 (staticFields_resolveBB _ _ _ _ _).2
  · exact set_set_staticFields _ _ _ _ _ _
      (staticFields_resolveCC _ _ _ _ _ _ _).1
      (staticFields_resolveCC _ _ _ _ _ _ _).2
  · rfl

lemma runPairs_cons (p : ℕ × ℕ) (ps : List (ℕ × ℕ)) (st : List RigidBody × ℕ) :
    runPairs (p :: ps) st = runPairs ps (resolvePair st p.1 p.2) := rfl

lemma runPairs_length (ps : List (ℕ × ℕ)) (st : List RigidBody × ℕ) :
    (runPairs ps st).1.length = st.1.length := by
  induction ps generalizing st with
  | nil => rfl
  | cons p ps ih =>
    rw [runPairs_cons, ih, length_resolvePair]

lemma runPairs_staticFields (ps : List (ℕ × ℕ)) (st : List RigidBody × ℕ)
    (k : ℕ) :
    staticFields ((runPairs ps st).1.getD k defaultBody) =
      staticFields (st.1.getD k defaultBody) := by
  induction ps generalizing st with
  | nil => rfl
  | cons p ps ih =>
    rw [runPairs_cons, ih, staticFields_resolvePair]

lemma narrowphase_cons (cell : (ℤ × ℤ × ℤ) × List ℕ)
    (rest : List ((ℤ × ℤ × ℤ) × List ℕ)) (st : List RigidBody × ℕ) :
    narrowphase (cell :: rest) st =
      narrowphase rest (runPairs (cellPairs cell.2) st) := rfl

lemma narrowphase_length (grid : List ((ℤ × ℤ × ℤ) × List ℕ))
    (st : List RigidBody × ℕ) :
    (narrowphase grid st).1.length = st.1.length := by
  induction grid generalizing st with
  | nil => rfl
  | cons cell rest ih =>
    rw [narrowphase_cons, ih, runPairs_length]

lemma narrowphase_staticFields (grid : List ((ℤ × ℤ × ℤ) × List ℕ))
    (st : List RigidBody × ℕ) (k : ℕ) :
    staticFields ((narrowphase grid st).1.getD k defaultBody) =
      staticFields (st.1.getD k defaultBody) := by
  induction grid generalizing st with
  | nil => rfl
  | cons cell rest ih =>
    rw [narrowphase_cons, ih, runPairs_staticFields]

lemma getD_map_staticFields (f : RigidBody → RigidBody)
    (hf : ∀ b, staticFields (f b) = staticFields b) (l : List RigidBody) :
    ∀ k : ℕ, staticFields ((l.map f).getD k defaultBody) =
      staticFields (l.getD k defaultBody) := by
  induction l with
  | nil => intro k; rfl
  | cons a t ih =>
    intro k
    cases k with
    | zero => exact hf a
    | succ k' => exact ih k'

/-- Claim C10: `update` never adds, removes, or reorders bodies — the list
after the call has the same length, the body at every index keeps its
identity (its shape, mass, inverse mass, inertia, inverse inertia, friction
and restitution are untouched; only position, velocity, angular state and
the accumulators are mutated), and the world's gravity and bounds are left
alone. -/
theorem spec_C10_frame (w : PhysicsWorld) (dt : ℝ) :
    (w.update dt).bodies.length = w.bodies.length ∧
    (w.update dt).gravity = w.gravity ∧
    (w.update dt).bounds = w.bounds ∧
    ∀ k : ℕ, staticFields ((w.update dt).bodies.getD k defaultBody) =
      staticFields (w.bodies.getD k defaultBody) := by
  have hmove : ∀ b : RigidBody,
      staticFields ((b.applyForce (w.gravity.mul b.mass)).integrate dt) =
        staticFields b := by
    intro b
    rw [staticFields_integrate, staticFields_applyForce]
  refine ⟨?_, rfl, rfl, ?_⟩
  · simp only [PhysicsWorld.update]
    rw [narrowphase_length]
    simp [PhysicsWorld.clampedBodies, PhysicsWorld.movedBodies]
  · intro k
    simp only [PhysicsWorld.update]
    rw [narrowphase_staticFields]
    simp only [PhysicsWorld.clampedBodies]
    rw [getD_map_staticFields _ (staticFields_resolveBounds w.bounds)]
    simp only [PhysicsWorld.movedBodies]
    rw [getD_map_staticFields _ hmove]

/-- Whether the dispatched narrowphase test succeeds for the pair `(i, j)`
of the body store `bs`: the conditions of main.js lines 154 (sphere), 168
(box) and 181 (cylinder); `False` for a mixed-kind or compound pair, which
the dispatch silently skips. -/
def pairHit (bs : List RigidBody) (i j : ℕ) : Prop :=
  let a := bs.getD i defaultBody
  let b := bs.getD j defaultBody
  match a.shape, b.shape with
  | Shape.sphere ra, Shape.sphere rb =>
    (a.position.sub b.position).length < ra + rb ∧
      (a.position.sub b.position).length > 0
  | Shape.box sa, Shape.box sb => boxCollides a b sa sb
  | Shape.cylinder ra ha, Shape.cylinder rb hb => cylinderCollides a b ra rb ha hb
  | _, _ => False

open Classical in
/-- The number of narrowphase hits along a candidate-pair list, tallied
against the evolving body store; defined without any reference to the
collision counter. -/
def hitCount : List RigidBody → List (ℕ × ℕ) → ℕ
  | _, [] => 0
  | bs, p :: ps =>
    (if pairHit bs p.1 p.2 then 1 else 0) +
      hitCount (resolvePair (bs, 0) p.1 p.2).1 ps

lemma resolveSS_body_indep (a b : RigidBody) (ra rb : ℝ) (c : ℕ) :
    (resolveSphereSphere a b ra rb c).1 = (resolveSphereSphere a b ra rb 0).1 ∧
    (resolveSphereSphere a b ra rb c).2.1 =
      (resolveSphereSphere a b ra rb 0).2.1 := by
  simp only [resolveSphereSphere]; split_ifs <;> exact ⟨rfl, rfl⟩

lemma resolveBB_body_indep (a b : RigidBody) (sa sb : ℝ) (c : ℕ) :
    (resolveBoxBox a b sa sb c).1 = (resolveBoxBox a b sa sb 0).1 ∧
    (resolveBoxBox a b sa sb c).2.1 = (resolveBoxBox a b sa sb 0).2.1 := by
  simp only [resolveBoxBox]; split_ifs <;> exact ⟨rfl, rfl⟩

lemma resolveCC_body_indep (a b : RigidBody) (ra rb ha hb : ℝ) (c : ℕ) :
    (resolveCylinderCylinder a b ra rb ha hb c).1 =
      (resolveCylinderCylinder a b ra rb ha hb 0).1 ∧
    (resolveCylinderCylinder a b ra rb ha hb c).2.1 =
      (resolveCylinderCylinder a b ra rb ha hb 0).2.1 := by
  simp only [resolveCylinderCylinder]; split_ifs <;> exact ⟨rfl, rfl⟩

lemma resolvePair_fst_count (bs : List RigidBody) (c i j : ℕ) :
    (resolvePair (bs, c) i j).1 = (resolvePair (bs, 0) i j).1 := by
  simp only [resolvePair]
  split
  · rw [(resolveSS_body_indep _ _ _ _ c).1, (resolveSS_body_indep _ _ _ _ c).2]
  · rw [(resolveBB_body_indep _ _ _ _ c).1, (resolveBB_body_indep _ _ _ _ c).2]
  · rw [(resolveCC_body_indep _ _ _ _ _ _ c).1,
      (resolveCC_body_indep _ _ _ _ _ _ c).2]
  · rfl

lemma resolveSS_count (a b : RigidBody) (ra rb : ℝ) (c : ℕ) :
    (resolveSphereSphere a b ra rb c).2.2 = c +
      (if (a.position.sub b.position).length < ra + rb ∧
          (a.position.sub b.position).length > 0 then 1 else 0) := by
  simp only [resolveSphereSphere]
  split_ifs <;> rfl

lemma resolveBB_count (a b : RigidBody) (sa sb : ℝ) (c : ℕ) :
    (resolveBoxBox a b sa sb c).2.2 = c +
      (if boxCollides a b sa sb then 1 else 0) := by
  simp only [resolveBoxBox]
  split_ifs <;> rfl

lemma resolveCC_count (a b : RigidBody) (ra rb ha hb : ℝ) (c : ℕ) :
    (resolveCylinderCylinder a b ra rb ha hb c).2.2 = c +
      (if cylinderCollides a b ra rb ha hb then 1 else 0) := by
  simp only [resolveCylinderCylinder]
  split_ifs <;> rfl

open Classical in
lemma resolvePair_count (bs : List RigidBody) (c i j : ℕ) :
    (resolvePair (bs, c) i j).2 = c + (if pairHit bs i j then 1 else 0) := by
  rcases hA : (bs.getD i defaultBody).shape with rA | sA | ⟨rA, hhA⟩ | lA <;>
    rcases hB : (bs.getD j defaultBody).shape with rB | sB | ⟨rB, hhB⟩ | lB <;>
      simp only [resolvePair, pairHit, hA, hB] <;>
        simp [resolveSS_count, resolveBB_count, resolveCC_count]

open Classical in
lemma runPairs_count (ps : List (ℕ × ℕ)) (bs : List RigidBody) (c : ℕ) :
    (runPairs ps (bs, c)).2 = c + hitCount bs ps := by
  induction ps generalizing bs c with
  | nil => rfl
  | cons p ps ih =>
    have hpair : resolvePair (bs, c) p.1 p.2 =
        ((resolvePair (bs, 0) p.1 p.2).1,
          c + (if pairHit bs p.1 p.2 then 1 else 0)) := by
      have h1 := resolvePair_count bs c p.1 p.2
      have h2 := resolvePair_fst_count bs c p.1 p.2
      rw [← h1, ← h2]
    rw [runPairs_cons, hpair, ih, hitCount]
    omega

/-- All candidate pairs of a grid: the cells in insertion order, the pairs
of each cell in loop order. -/
def allPairs : List ((ℤ × ℤ × ℤ) × List ℕ) → List (ℕ × ℕ)
  | [] => []
  | cell :: rest => cellPairs cell.2 ++ allPairs rest

lemma runPairs_append (xs ys : List (ℕ × ℕ)) (st : List RigidBody × ℕ) :
    runPairs (xs ++ ys) st = runPairs ys (runPairs xs st) := by
  simp only [runPairs, List.foldl_append]

lemma narrowphase_eq_runPairs (grid : List ((ℤ × ℤ × ℤ) × List ℕ))
    (st : List RigidBody × ℕ) : narrowphase grid st = runPairs (allPairs grid) st := by
  induction grid generalizing st with
  | nil => rfl
  | cons cell rest ih =>
    rw [narrowphase_cons, allPairs, runPairs_append, ih]

/-- Claim C9: after every `update(dt)` call the collision counter equals
exactly the number of narrowphase hits resolved during that call (one
increment per same-cell, same-shape-kind pair whose test succeeded, tallied
by `hitCount` along the traversal order); the counter is reset at the start
of the step, so the incoming `collisionCount` value never influences the
outcome — the whole resulting world is independent of it. -/
theorem spec_C9_collision_count (w : PhysicsWorld) (dt : ℝ) (c : ℕ) :
    PhysicsWorld.update { w with collisionCount := c } dt =
      PhysicsWorld.update w dt ∧
    (PhysicsWorld.update w dt).collisionCount =
      hitCount (w.clampedBodies dt) (allPairs (buildGrid w.preGridKeys)) := by
  constructor
  · rfl
  · simp only [PhysicsWorld.update]
    rw [narrowphase_eq_runPairs, runPairs_count]
    omega

/-- Claim C7: `Vec3.normalize` is a total function; on a zero-length vector
it returns the zero vector, and otherwise it returns the vector scaled by
the reciprocal of its length. -/
theorem spec_C7_normalize_total (v : Vec3) :
    (v.length = 0 → v.normalize = Vec3.zero) ∧
    (v.length ≠ 0 → v.normalize = v.mul (1 / v.length)) := by
  constructor
  · intro h; rw [Vec3.normalize, if_pos h]
  · intro h; rw [Vec3.normalize, if_neg h]

/-- The region where the JavaScript save/load field encoding is lossless:
any sphere, a box of nonzero edge, and a cylinder of nonzero height.
Outside it the import defaults bite: `obj.height || 2` turns a saved height
of 0 into 2, and `shape.size || shape.radius` degenerates for a box of
edge 0. -/
def dimsFaithful : Shape → Prop
  | Shape.sphere _ => True
  | Shape.box e => e ≠ 0
  | Shape.cylinder _ h => h ≠ 0
  | Shape.custom _ => False

/-- Claim C8 (amended): the save-record/import round trip restores every
observable field — shape kind and dimensions, position, velocity, angular
velocity, mass, friction, restitution — exactly (real arithmetic), for
every sphere body, every box body of nonzero edge and every cylinder body of
nonzero height; a cylinder of height 0 comes back with height 2 (see the
counterexample), so the unrestricted claim fails. -/
theorem spec_C8_roundtrip (b : RigidBody) (h : dimsFaithful b.shape) :
    (loadBody (saveBody b)).map obsFields = some (obsFields b) := by
  rcases hs : b.shape with r | e | ⟨r, hh⟩ | l
  · simp [loadBody, saveBody, obsFields, jsOr, Shape.typeTag, Shape.sizeField,
      Shape.radiusField, Shape.heightField, mkRigidBody, hs]
  · rw [hs] at h
    simp only [dimsFaithful] at h
    simp [loadBody, saveBody, obsFields, jsOr, Shape.typeTag, Shape.sizeField,
      Shape.radiusField, Shape.heightField, mkRigidBody, hs, h]
  · rw [hs] at h
    simp only [dimsFaithful] at h
    simp [loadBody, saveBody, obsFields, jsOr, Shape.typeTag, Shape.sizeField,
      Shape.radiusField, Shape.heightField, mkRigidBody, hs, h]
  · rw [hs] at h
    simp only [dimsFaithful] at h

/-- A cylinder body of radius 1 and height 0, inside the claim's stated
scope (its shape is a Cylinder). -/
def zeroHeightCyl : RigidBody :=
  { position := ⟨1, 2, 3⟩
    velocity := ⟨4, 5, 6⟩
    force := Vec3.zero
    shape := Shape.cylinder 1 0
    mass := 2
    invMass := 1 / 2
    restitution := 7 / 20
    friction := 3 / 10
    angularVelocity := ⟨1, 0, 0⟩
    torque := Vec3.zero
    inertia := 1
    invInertia := 1 }

/-- Claim C8 counterexample: a cylinder body of height 0 does not survive
the round trip — the import's `obj.height || 2` reconstructs it with height
2, so the rebuilt body's shape dimensions differ from the original's. -/
theorem spec_C8_counterexample :
    (loadBody (saveBody zeroHeightCyl)).map obsFields ≠
      some (obsFields zeroHeightCyl) := by
  simp [loadBody, saveBody, obsFields, jsOr, Shape.typeTag, Shape.sizeField,
    Shape.radiusField, Shape.heightField, mkRigidBody, zeroHeightCyl]

/-- A sphere body with distinctive values in every observable field. -/
def roundTripSphere : RigidBody :=
  { position := ⟨1, 2, 3⟩
    velocity := ⟨4, 5, 6⟩
    force := ⟨1, 1, 1⟩
    shape := Shape.sphere (1 / 2)
    mass := 2
    invMass := 1 / 2
    restitution := 4 / 5
    friction := 1 / 4
    angularVelocity := ⟨7, 8, 9⟩
    torque := Vec3.zero
    inertia := 1 / 5
    invInertia := 5 }

/-- Witness for the amended C8 at a concrete sphere body. -/
theorem spec_C8_witness :
    dimsFaithful roundTripSphere.shape ∧
    (loadBody (saveBody roundTripSphere)).map obsFields =
      some (obsFields roundTripSphere) := by
  have h : dimsFaithful roundTripSphere.shape := by
    simp [dimsFaithful, roundTripSphere]
  exact ⟨h, spec_C8_roundtrip roundTripSphere h⟩

/-- For a two-body world whose bodies hash to different broadphase cells at
entry, the narrowphase visits no pair at all: the update is exactly the
move-and-clamp pipeline with a zero collision count. -/
lemma update_two_distinct (a b : RigidBody) (g : Vec3) (B : Bounds) (dt : ℝ)
    (c : ℕ) (h : gridKey a.position ≠ gridKey b.position) :
    PhysicsWorld.update ⟨[a, b], g, B, c⟩ dt =
      ⟨PhysicsWorld.clampedBodies ⟨[a, b], g, B, c⟩ dt, g, B, 0⟩ := by
  have hgrid : buildGrid (PhysicsWorld.preGridKeys ⟨[a, b], g, B, c⟩) =
      [(gridKey a.position, [0]), (gridKey b.position, [1])] := by
    simp [PhysicsWorld.preGridKeys, buildGrid, buildGridAux, insertGrid, h]
  simp only [PhysicsWorld.update, hgrid]
  rw [narrowphase_cons, narrowphase_cons]
  rfl

/-- `getD` through a map whose default is mapped as well. -/
lemma getD_map_eq {α β : Type} (f : α → β) (d : α) (l : List α) :
    ∀ n : ℕ, (l.map f).getD n (f d) = f (l.getD n d) := by
  induction l with
  | nil => intro n; rfl
  | cons a t ih =>
    intro n
    cases n with
    | zero => rfl
    | succ n' => exact ih n'

/-- Every index held by a grid bucket hashes (under the key-lookup `f`) to
that bucket's key. -/
def GridOK (f : ℕ → ℤ × ℤ × ℤ) (g : List ((ℤ × ℤ × ℤ) × List ℕ)) : Prop :=
  ∀ cell ∈ g, ∀ i ∈ cell.2, f i = cell.1

lemma gridOK_insert (f : ℕ → ℤ × ℤ × ℤ) (k : ℤ × ℤ × ℤ) (i : ℕ)
    (hi : f i = k) :
    ∀ g : List ((ℤ × ℤ × ℤ) × List ℕ), GridOK f g →
      GridOK f (insertGrid g k i) := by
  intro g
  induction g with
  | nil =>
    intro _ cell hcell j hj
    rw [insertGrid] at hcell
    rcases List.mem_singleton.1 hcell with rfl
    rcases List.mem_singleton.1 hj with rfl
    exact hi
  | cons c rest ih =>
    obtain ⟨k', l⟩ := c
    intro hg cell hcell j hj
    rw [insertGrid] at hcell
    split_ifs at hcell with hk
    · rcases List.mem_cons.1 hcell with rfl | hcell'
      · rcases List.mem_append.1 hj with hjl | hji
        · exact hg (k', l) (List.mem_cons_self _ _) j hjl
        · rcases List.mem_singleton.1 hji with rfl
          rw [hi]
          exact hk.symm
      · exact hg cell (List.mem_cons_of_mem _ hcell') j hj
    · rcases List.mem_cons.1 hcell with rfl | hcell'
      · exact hg (k', l) (List.mem_cons_self _ _) j hj
      · exact ih (fun c' hc' => hg c' (List.mem_cons_of_mem _ hc')) cell
          hcell' j hj

lemma gridOK_buildAux (f : ℕ → ℤ × ℤ × ℤ) (d : ℤ × ℤ × ℤ) :
    ∀ (keys : List (ℤ × ℤ × ℤ)) (start : ℕ)
      (g : List ((ℤ × ℤ × ℤ) × List ℕ)), GridOK f g →
      (∀ n : ℕ, n < keys.length → f (start + n) = keys.getD n d) →
      GridOK f (buildGridAux keys start g) := by
  intro keys
  induction keys with
  | nil => intro start g hg _; exact hg
  | cons k ks ih =>
    intro start g hg hkeys
    rw [buildGridAux]
    refine ih (start + 1) _ (gridOK_insert f k start ?_ g hg) ?_
    · have h0 := hkeys 0 (by simp)
      simpa using h0
    · intro n hn
      have hsn := hkeys (n + 1) (by simpa using Nat.succ_lt_succ hn)
      rw [show start + 1 + n = start + (n + 1) by omega]
      simpa using hsn

/-- The grid of a key list is sound: a bucket only holds indices whose key
equals the bucket key. -/
lemma gridOK_buildGrid (keys : List (ℤ × ℤ × ℤ)) (d : ℤ × ℤ × ℤ) :
    GridOK (fun n => keys.getD n d) (buildGrid keys) := by
  refine gridOK_buildAux _ d keys 0 [] ?_ ?_
  · intro cell hcell
    exact absurd hcell (List.not_mem_nil _)
  · intro n _
    simp

lemma mem_cellPairs {l : List ℕ} {p : ℕ × ℕ} (hp : p ∈ cellPairs l) :
    p.1 ∈ l ∧ p.2 ∈ l := by
  induction l with
  | nil => simp [cellPairs] at hp
  | cons x xs ih =>
    rw [cellPairs] at hp
    rcases List.mem_append.1 hp with h1 | h2
    · rcases List.mem_map.1 h1 with ⟨j, hj, rfl⟩
      exact ⟨List.mem_cons_self _ _, List.mem_cons_of_mem _ hj⟩
    · obtain ⟨h1', h2'⟩ := ih h2
      exact ⟨List.mem_cons_of_mem _ h1', List.mem_cons_of_mem _ h2'⟩

lemma mem_allPairs {grid : List ((ℤ × ℤ × ℤ) × List ℕ)} {p : ℕ × ℕ}
    (hp : p ∈ allPairs grid) :
    ∃ cell ∈ grid, p.1 ∈ cell.2 ∧ p.2 ∈ cell.2 := by
  induction grid with
  | nil => simp [allPairs] at hp
  | cons c rest ih =>
    rw [allPairs] at hp
    rcases List.mem_append.1 hp with h1 | h2
    · exact ⟨c, List.mem_cons_self _ _, mem_cellPairs h1⟩
    · obtain ⟨cell, hc, hm⟩ := ih h2
      exact ⟨cell, List.mem_cons_of_mem _ hc, hm⟩

/-- Claim C2 (amended): in every `update` call, the broadphase cell key of
each body is computed from its pre-integration position — the position at
entry to `update`, before gravity and integration run.  The step's
narrowphase runs over exactly the candidate pairs of the grid hashed from
those entry positions, and any two bodies (of an arbitrary world) whose
entry positions hash to different cells never appear among those
candidates, in either order, no matter where integration moves them. -/
theorem spec_C2_pre_integration_keys (w : PhysicsWorld) (dt : ℝ) (i j : ℕ)
    (h : gridKey (w.bodies.getD i defaultBody).position ≠
      gridKey (w.bodies.getD j defaultBody).position) :
    PhysicsWorld.update w dt =
      ⟨(runPairs (allPairs (buildGrid w.preGridKeys))
          (w.clampedBodies dt, 0)).1, w.gravity, w.bounds,
        (runPairs (allPairs (buildGrid w.preGridKeys))
          (w.clampedBodies dt, 0)).2⟩ ∧
    (i, j) ∉ allPairs (buildGrid w.preGridKeys) ∧
    (j, i) ∉ allPairs (buildGrid w.preGridKeys) := by
  have hkey : ∀ n : ℕ,
      w.preGridKeys.getD n (gridKey defaultBody.position) =
        gridKey (w.bodies.getD n defaultBody).position := by
    intro n
    rw [PhysicsWorld.preGridKeys]
    exact getD_map_eq (fun b => gridKey b.position) defaultBody w.bodies n
  have hOK := gridOK_buildGrid w.preGridKeys (gridKey defaultBody.position)
  have hmain : ∀ p : ℕ × ℕ, p ∈ allPairs (buildGrid w.preGridKeys) →
      gridKey (w.bodies.getD p.1 defaultBody).position =
        gridKey (w.bodies.getD p.2 defaultBody).position := by
    intro p hp
    obtain ⟨cell, hcell, h1, h2⟩ := mem_allPairs hp
    have e1 := hOK cell hcell p.1 h1
    have e2 := hOK cell hcell p.2 h2
    rw [← hkey p.1, ← hkey p.2]
    exact e1.trans e2.symm
  refine ⟨?_, fun hp => h (hmain (i, j) hp),
    fun hp => h ((hmain (j, i) hp).symm)⟩
  simp only [PhysicsWorld.update]
  rw [narrowphase_eq_runPairs]

/-- A sphere of radius 3/10 at x = 0.7 (broadphase cell 0 on x) moving in +x
with speed 1; gravity will be zero in the example world. -/
def exA : RigidBody :=
  { position := ⟨7 / 10, 7 / 2, 1 / 2⟩
    velocity := ⟨1, 0, 0⟩
    force := Vec3.zero
    shape := Shape.sphere (3 / 10)
    mass := 1
    invMass := 1
    restitution := 7 / 20
    friction := 3 / 10
    angularVelocity := Vec3.zero
    torque := Vec3.zero
    inertia := 9 / 250
    invInertia := 250 / 9 }

/-- A resting sphere of radius 3/10 at x = 1.6 (broadphase cell 1 on x). -/
def exB : RigidBody :=
  { exA with position := ⟨8 / 5, 7 / 2, 1 / 2⟩, velocity := ⟨0, 0, 0⟩ }

/-- `exA` after half a second of drift: x = 1.2, now overlapping `exB`
(distance 0.4 < 0.6) and in its cell. -/
def exA2 : RigidBody :=
  { exA with position := ⟨6 / 5, 7 / 2, 1 / 2⟩ }

/-- The example world: the two spheres, zero gravity, default bounds. -/
def exW : PhysicsWorld := ⟨[exA, exB], ⟨0, 0, 0⟩, stdBounds, 0⟩

lemma exW_moved : exW.movedBodies (1 / 2) = [exA2, exB] := by
  norm_num [PhysicsWorld.movedBodies, exW, exA, exB, exA2,
    RigidBody.applyForce, RigidBody.integrate, Vec3.add, Vec3.mul, Vec3.zero]

lemma exW_clamped : exW.clampedBodies (1 / 2) = [exA2, exB] := by
  rw [PhysicsWorld.clampedBodies, exW_moved]
  norm_num [resolveBounds, clampGround, clampXLow, clampXHigh, clampZLow,
    clampZHigh, clampYHigh, halfSize, exA2, exA, exB, exW, stdBounds]

lemma exW_postKeys :
    (exW.movedBodies (1 / 2)).map (fun b => gridKey b.position) =
      [(1, 3, 0), (1, 3, 0)] := by
  rw [exW_moved]
  norm_num [gridKey, exA2, exA, exB]

lemma exKeysDistinct : gridKey exA.position ≠ gridKey exB.position := by
  have ha : gridKey exA.position = (0, 3, 0) := by
    norm_num [gridKey, exA]
  have hb : gridKey exB.position = (1, 3, 0) := by
    norm_num [gridKey, exB, exA]
  rw [ha, hb]
  simp

lemma exPairHit : pairHit [exA2, exB] 0 1 := by
  have hsub : exA2.position.sub exB.position = ⟨-(2 / 5), 0, 0⟩ := by
    norm_num [exA2, exA, exB, Vec3.sub]
  have hlen : (exA2.position.sub exB.position).length = 2 / 5 := by
    rw [hsub, Vec3.length,
      show (-(2 / 5 : ℝ) * -(2 / 5) + 0 * 0 + 0 * 0) = (2 / 5) ^ 2 by norm_num]
    exact Real.sqrt_sq (by norm_num)
  have hshA : exA2.shape = Shape.sphere (3 / 10) := rfl
  have hshB : exB.shape = Shape.sphere (3 / 10) := rfl
  simp only [pairHit, List.getD_cons_zero, List.getD_cons_succ, hshA, hshB]
  exact ⟨by rw [hlen]; norm_num, by rw [hlen]; norm_num⟩

/-- Claim C2 counterexample: in the example world the two spheres overlap at
their post-integration positions and share the post-integration broadphase
cell, yet `update` resolves nothing (count 0) because its grid is hashed
from the pre-integration positions, which lie in different cells; the
spec-ordered variant that hashes after integration resolves the pair
(count 1).  The claim that candidate pairs are generated from
post-integration positions is therefore false of the code. -/
theorem spec_C2_counterexample :
    (PhysicsWorld.update exW (1 / 2)).collisionCount = 0 ∧
    (PhysicsWorld.updateSpecPostGrid exW (1 / 2)).collisionCount = 1 := by
  constructor
  · have h := update_two_distinct exA exB ⟨0, 0, 0⟩ stdBounds (1 / 2) 0
      exKeysDistinct
    rw [show exW = (⟨[exA, exB], ⟨0, 0, 0⟩, stdBounds, 0⟩ : PhysicsWorld)
      from rfl, h]
  · simp only [PhysicsWorld.updateSpecPostGrid]
    rw [exW_postKeys,
      show buildGrid [((1 : ℤ), (3 : ℤ), (0 : ℤ)), (1, 3, 0)] =
        [((1, 3, 0), [0, 1])] by norm_num [buildGrid, buildGridAux, insertGrid],
      exW_clamped, narrowphase_cons,
      show cellPairs [0, 1] = [(0, 1)] from rfl, runPairs_cons]
    show (resolvePair ([exA2, exB], 0) 0 1).2 = 1
    rw [resolvePair_count, if_pos exPairHit]

/-- A third resting sphere, in its own broadphase cell at x = 5. -/
def exC : RigidBody :=
  { exA with position := ⟨5, 7 / 2, 1 / 2⟩, velocity := ⟨0, 0, 0⟩ }

/-- A three-body world: the two example spheres plus `exC`. -/
def exW3 : PhysicsWorld := ⟨[exA, exB, exC], ⟨0, 0, 0⟩, stdBounds, 0⟩

/-- Witness for the amended C2: in the three-body world, bodies 0 and 1 sit
in distinct pre-integration cells, so neither (0,1) nor (1,0) is a
narrowphase candidate of the step. -/
theorem spec_C2_witness :
    gridKey (exW3.bodies.getD 0 defaultBody).position ≠
      gridKey (exW3.bodies.getD 1 defaultBody).position ∧
    (PhysicsWorld.update exW3 (1 / 2) =
      ⟨(runPairs (allPairs (buildGrid exW3.preGridKeys))
          (exW3.clampedBodies (1 / 2), 0)).1, exW3.gravity, exW3.bounds,
        (runPairs (allPairs (buildGrid exW3.preGridKeys))
          (exW3.clampedBodies (1 / 2), 0)).2⟩ ∧
      (0, 1) ∉ allPairs (buildGrid exW3.preGridKeys) ∧
      (1, 0) ∉ allPairs (buildGrid exW3.preGridKeys)) := by
  have h : gridKey (exW3.bodies.getD 0 defaultBody).position ≠
      gridKey (exW3.bodies.getD 1 defaultBody).position := by
    have h0 : exW3.bodies.getD 0 defaultBody = exA := rfl
    have h1 : exW3.bodies.getD 1 defaultBody = exB := rfl
    rw [h0, h1]
    exact exKeysDistinct
  exact ⟨h, spec_C2_pre_integration_keys exW3 (1 / 2) 0 1 h⟩

/-- Witness for C7 at the zero vector and at (3,0,4) (length 5). -/
theorem spec_C7_witness :
    (Vec3.length ⟨0, 0, 0⟩ = 0 ∧ Vec3.normalize ⟨0, 0, 0⟩ = Vec3.zero) ∧
    (Vec3.length ⟨3, 0, 4⟩ ≠ 0 ∧
      Vec3.normalize ⟨3, 0, 4⟩ =
        Vec3.mul ⟨3, 0, 4⟩ (1 / Vec3.length ⟨3, 0, 4⟩)) := by
  have h0 : Vec3.length ⟨0, 0, 0⟩ = 0 := by
    simp [Vec3.length]
  have h1 : Vec3.length ⟨3, 0, 4⟩ = 5 := by
    rw [Vec3.length, show ((3 : ℝ) * 3 + 0 * 0 + 4 * 4) = 5 ^ 2 by norm_num,
      Real.sqrt_sq (by norm_num : (0 : ℝ) ≤ 5)]
  have h1' : Vec3.length ⟨3, 0, 4⟩ ≠ 0 := by rw [h1]; norm_num
  exact ⟨⟨h0, (spec_C7_normalize_total _).1 h0⟩,
    ⟨h1', (spec_C7_normalize_total _).2 h1'⟩⟩

end


